import Mathlib

/-!
Verification development for the self-hosted fire-engine scraping worker.

The definitions below are a shallow embedding of the TypeScript sources:

* `detectBlock` and its helpers embed `src/lib/block-detection.ts`
  (the pure block-detection classifier);
* JavaScript strings are embedded as `List Char`, string `includes` as
  list-infix (`<:+:`), `toLowerCase` as a character map, and JS header
  objects as association lists whose later entries win;
* numeric confidences are embedded as exact rationals (every confidence
  literal in the source is an exact decimal).
-/

/-- JavaScript string, embedded as its sequence of characters. -/
abbrev JSStr := List Char

/-- `String.toLowerCase()` on a body (ASCII-relevant part of JS semantics). -/
def lowerChars (s : JSStr) : JSStr := s.map Char.toLower

/-- `containsAny(html, patterns)` from block-detection.ts:
`patterns.some((pattern) => html.includes(pattern))`. -/
def ContainsAny (body : JSStr) (pats : List JSStr) : Prop :=
  ∃ p ∈ pats, p <:+: body

instance (body : JSStr) (pats : List JSStr) : Decidable (ContainsAny body pats) := by
  unfold ContainsAny; infer_instance

/-- Header maps: association lists of raw (key, value) pairs. -/
abbrev Headers := List (JSStr × JSStr)

/-- `normalizeHeaders` from block-detection.ts: lowercase every key;
on collisions the later entry overwrites (JS object assignment). -/
def normalizeHeaders (headers : Headers) : Headers :=
  headers.map (fun kv => (lowerChars kv.1, kv.2))

/-- Lookup in the normalized header object (later entries win). -/
def headerGet (headers : Headers) (key : JSStr) : Option JSStr :=
  ((normalizeHeaders headers).reverse).lookup key

/-- JS truthiness of a possibly-absent string: present and non-empty. -/
def truthyStr : Option JSStr → Bool
  | none => false
  | some s => !s.isEmpty

/-- The rate-limit-header test of `detectBlock` (its first `if`). -/
def rateLimitHeaderHit (headers : Headers) : Bool :=
  truthyStr (headerGet headers "retry-after".data)
  || (headerGet headers "x-ratelimit-remaining".data == some "0".data)
  || (headerGet headers "x-rate-limit-remaining".data == some "0".data)

/-- `html.trim().length === 0`: every character is whitespace. -/
def jsTrimEmpty (s : JSStr) : Bool := s.all (fun c => c.isWhitespace)

/-- `BlockedReason` from types/response.ts. -/
inductive BlockedReason
  | ip_block
  | robot_detected
  | captcha
  | rate_limited
  | unknown
deriving DecidableEq, Repr

/-- `BlockDetectionResult` from block-detection.ts; an absent `reason`
field is `none`. -/
structure BlockDetectionResult where
  isBlocked : Bool
  reason : Option BlockedReason
  confidence : ℚ
deriving DecidableEq, Repr

/-- CAPTCHA patterns from block-detection.ts. -/
def CAPTCHA_PATTERNS : List JSStr :=
  ["captcha", "recaptcha", "hcaptcha", "cf-turnstile", "challenge-form",
   "challenge-running", "g-recaptcha", "h-captcha", "arkose",
   "funcaptcha"].map String.data

/-- Bot detection / human verification patterns from block-detection.ts. -/
def BOT_DETECTION_PATTERNS : List JSStr :=
  ["verify you are human", "verify you are not a robot", "verify you're human",
   "verify you're not a robot", "prove you are human", "prove you're human",
   "are you a robot", "are you human", "confirm you are not a robot",
   "access denied", "access blocked", "blocked by", "suspicious activity",
   "unusual traffic", "automated access", "bot detected", "robot detected",
   "automated request", "please enable javascript", "javascript is required",
   "browser check", "security check"].map String.data

/-- Cloudflare-specific patterns from block-detection.ts. -/
def CLOUDFLARE_PATTERNS : List JSStr :=
  ["cloudflare", "cf-ray", "checking your browser", "just a moment",
   "please wait while we verify", "ddos protection", "ray id:",
   "performance & security by cloudflare", "__cf_bm",
   "cf_chl_opt"].map String.data

/-- Rate limiting patterns from block-detection.ts. -/
def RATE_LIMIT_PATTERNS : List JSStr :=
  ["rate limit", "rate-limit", "ratelimit", "too many requests", "slow down",
   "request limit exceeded", "quota exceeded", "throttled"].map String.data

/-- IP block patterns from block-detection.ts. -/
def IP_BLOCK_PATTERNS : List JSStr :=
  ["ip blocked", "ip banned", "your ip", "ip address", "blocked ip",
   "banned ip", "forbidden", "403 forbidden"].map String.data

/-- The body-content tail of `detectBlock` (the statements of
block-detection.ts from the comment "For 200 responses, check content for
signs of blocking" to the final return): these run whenever no header or
status rule has already returned. -/
def bodyChain (statusCode : Int) (html : JSStr) : BlockDetectionResult :=
  if ContainsAny (lowerChars html) CAPTCHA_PATTERNS then
    if html.length < 50000 then
      ⟨true, some .captcha, 0.9⟩
    else
      ⟨true, some .captcha, 0.6⟩
  else if ContainsAny (lowerChars html) CLOUDFLARE_PATTERNS then
    if html.length < 15000 then
      ⟨true, some .robot_detected, 0.85⟩
    else
      ⟨false, none, 0⟩
  else if ContainsAny (lowerChars html) BOT_DETECTION_PATTERNS then
    if html.length < 20000 then
      ⟨true, some .robot_detected, 0.8⟩
    else
      ⟨true, some .robot_detected, 0.5⟩
  else if ContainsAny (lowerChars html) RATE_LIMIT_PATTERNS then
    ⟨true, some .rate_limited, 0.75⟩
  else if ContainsAny (lowerChars html) IP_BLOCK_PATTERNS then
    if html.length < 20000 then
      ⟨true, some .ip_block, 0.7⟩
    else
      ⟨true, some .ip_block, 0.4⟩
  else if jsTrimEmpty html ∧ statusCode = 200 then
    ⟨true, some .unknown, 0.3⟩
  else
    ⟨false, none, 0⟩

/-- `detectBlock(statusCode, html, headers)` from block-detection.ts,
transcribed branch for branch (its body-content tail is `bodyChain`).
The status-401 block in the source has no `else` return: when the status
is 401 and no IP-block pattern matches, control falls through to the
body-content checks, which is rendered here by the combined condition
`statusCode = 401 ∧ ContainsAny ...`. -/
def detectBlock (statusCode : Int) (html : JSStr) (headers : Headers) :
    BlockDetectionResult :=
  if rateLimitHeaderHit headers then
    ⟨true, some .rate_limited, 0.95⟩
  else if statusCode = 429 then
    ⟨true, some .rate_limited, 0.95⟩
  else if statusCode = 403 then
    if ContainsAny (lowerChars html) CAPTCHA_PATTERNS then
      ⟨true, some .captcha, 0.9⟩
    else if ContainsAny (lowerChars html) BOT_DETECTION_PATTERNS then
      ⟨true, some .robot_detected, 0.85⟩
    else
      ⟨true, some .ip_block, 0.8⟩
  else if statusCode = 503 then
    if ContainsAny (lowerChars html) CLOUDFLARE_PATTERNS then
      ⟨true, some .robot_detected, 0.85⟩
    else
      ⟨true, some .ip_block, 0.6⟩
  else if statusCode = 401 ∧ ContainsAny (lowerChars html) IP_BLOCK_PATTERNS then
    ⟨true, some .ip_block, 0.7⟩
  else
    bodyChain statusCode html

/-! ## The precedence table of the classifier

A rule either fires with a result or passes; `applyRules` interprets an
ordered rule table first-match-wins.  `fireEngineRules` is the table the
source implements; `specTable441` is the table as written in §4.1 of the
specification (whose rule 1 tests mere presence of `retry-after`, and
whose rule 5 returns "not blocked" on every 401 without an IP-block
pattern instead of falling through). -/

/-- One classifier rule: fires with a result, or passes. -/
abbrev BlockRule := Int → JSStr → Headers → Option BlockDetectionResult

/-- First-match-wins interpretation of an ordered rule table; produces
the not-blocked result when no rule fires. -/
def applyRules : List BlockRule → Int → JSStr → Headers → BlockDetectionResult
  | [], _, _, _ => ⟨false, none, 0⟩
  | r :: rs, s, b, h =>
    match r s b h with
    | some res => res
    | none => applyRules rs s b h

def ruleRateLimitHeaders : BlockRule := fun _ _ h =>
  if rateLimitHeaderHit h then some ⟨true, some .rate_limited, 0.95⟩ else none

def ruleStatus429 : BlockRule := fun s _ _ =>
  if s = 429 then some ⟨true, some .rate_limited, 0.95⟩ else none

def ruleStatus403 : BlockRule := fun s b _ =>
  if s = 403 then
    some (if ContainsAny (lowerChars b) CAPTCHA_PATTERNS then
            ⟨true, some .captcha, 0.9⟩
          else if ContainsAny (lowerChars b) BOT_DETECTION_PATTERNS then
            ⟨true, some .robot_detected, 0.85⟩
          else
            ⟨true, some .ip_block, 0.8⟩)
  else none

def ruleStatus503 : BlockRule := fun s b _ =>
  if s = 503 then
    some (if ContainsAny (lowerChars b) CLOUDFLARE_PATTERNS then
            ⟨true, some .robot_detected, 0.85⟩
          else
            ⟨true, some .ip_block, 0.6⟩)
  else none

/-- The source's 401 rule: fires only when an IP-block pattern is present
(otherwise the classifier falls through to the body rules). -/
def ruleStatus401 : BlockRule := fun s b _ =>
  if s = 401 ∧ ContainsAny (lowerChars b) IP_BLOCK_PATTERNS then
    some ⟨true, some .ip_block, 0.7⟩
  else none

def ruleBodyCaptcha : BlockRule := fun _ b _ =>
  if ContainsAny (lowerChars b) CAPTCHA_PATTERNS then
    some (if b.length < 50000 then ⟨true, some .captcha, 0.9⟩
          else ⟨true, some .captcha, 0.6⟩)
  else none

def ruleBodyCloudflare : BlockRule := fun _ b _ =>
  if ContainsAny (lowerChars b) CLOUDFLARE_PATTERNS then
    some (if b.length < 15000 then ⟨true, some .robot_detected, 0.85⟩
          else ⟨false, none, 0⟩)
  else none

def ruleBodyBotDetection : BlockRule := fun _ b _ =>
  if ContainsAny (lowerChars b) BOT_DETECTION_PATTERNS then
    some (if b.length < 20000 then ⟨true, some .robot_detected, 0.8⟩
          else ⟨true, some .robot_detected, 0.5⟩)
  else none

def ruleBodyRateLimit : BlockRule := fun _ b _ =>
  if ContainsAny (lowerChars b) RATE_LIMIT_PATTERNS then
    some ⟨true, some .rate_limited, 0.75⟩
  else none

def ruleBodyIpBlock : BlockRule := fun _ b _ =>
  if ContainsAny (lowerChars b) IP_BLOCK_PATTERNS then
    some (if b.length < 20000 then ⟨true, some .ip_block, 0.7⟩
          else ⟨true, some .ip_block, 0.4⟩)
  else none

def ruleEmptyBody200 : BlockRule := fun s b _ =>
  if jsTrimEmpty b ∧ s = 200 then some ⟨true, some .unknown, 0.3⟩ else none

/-- The ordered rule table implemented by block-detection.ts. -/
def fireEngineRules : List BlockRule :=
  [ruleRateLimitHeaders, ruleStatus429, ruleStatus403, ruleStatus503,
   ruleStatus401, ruleBodyCaptcha, ruleBodyCloudflare, ruleBodyBotDetection,
   ruleBodyRateLimit, ruleBodyIpBlock, ruleEmptyBody200]

/-- Modelled from the spec: rule 1 of §4.1 — "if `retry-after` present
(case-insensitive), or `x-ratelimit-remaining == "0"`, or
`x-rate-limit-remaining == "0"`" — which tests presence of the
`retry-after` header rather than JS truthiness of its value. -/
def specRuleRateLimitHeaders : BlockRule := fun _ _ h =>
  if (headerGet h "retry-after".data).isSome
     || headerGet h "x-ratelimit-remaining".data == some "0".data
     || headerGet h "x-rate-limit-remaining".data == some "0".data then
    some ⟨true, some .rate_limited, 0.95⟩
  else none

/-- Modelled from the spec: rule 5 of §4.1 — "Status 401: if any IP-block
pattern → ip_block, 0.7; else not blocked" — which terminates the table
on every 401 input. -/
def specRuleStatus401 : BlockRule := fun s b _ =>
  if s = 401 then
    some (if ContainsAny (lowerChars b) IP_BLOCK_PATTERNS then
            ⟨true, some .ip_block, 0.7⟩
          else ⟨false, none, 0⟩)
  else none

/-- Modelled from the spec: the twelve-rule precedence table exactly as
written in §4.1 (rule 12, "otherwise not blocked", is `applyRules`'s
fall-through). -/
def specTable441 : List BlockRule :=
  [specRuleRateLimitHeaders, ruleStatus429, ruleStatus403, ruleStatus503,
   specRuleStatus401, ruleBodyCaptcha, ruleBodyCloudflare,
   ruleBodyBotDetection, ruleBodyRateLimit, ruleBodyIpBlock,
   ruleEmptyBody200]

/-- The blocked results of `detectBlock` that carry confidence at least
0.5, in source order of their return statements. -/
def blockedHighResults : List BlockDetectionResult :=
  [⟨true, some .rate_limited, 0.95⟩, ⟨true, some .captcha, 0.9⟩,
   ⟨true, some .robot_detected, 0.85⟩, ⟨true, some .ip_block, 0.8⟩,
   ⟨true, some .ip_block, 0.6⟩, ⟨true, some .ip_block, 0.7⟩,
   ⟨true, some .captcha, 0.6⟩, ⟨true, some .robot_detected, 0.8⟩,
   ⟨true, some .robot_detected, 0.5⟩, ⟨true, some .rate_limited, 0.75⟩]

/-- The confidence values that blocked results can carry. -/
def CONFIDENCE_VALUES : List ℚ :=
  [0.3, 0.4, 0.5, 0.6, 0.7, 0.75, 0.8, 0.85, 0.9, 0.95]

/-- The `blockedReason` attachment both pipelines perform after running
the classifier (playwright.ts and tlsclient.ts): the reason is surfaced
only when blocked with confidence at least 0.5. -/
def attachBlockedReason (r : BlockDetectionResult) : Option BlockedReason :=
  if r.isBlocked = true ∧ r.confidence ≥ 0.5 then r.reason else none

/-- A body that starts with "cloudflare" padded with `n` letters z. -/
def cfBody (n : ℕ) : JSStr := "cloudflare".data ++ List.replicate n 'z'

/-- A body that starts with "captcha" padded with `n` letters z. -/
def capBody (n : ℕ) : JSStr := "captcha".data ++ List.replicate n 'z'

/-! ## Engine router: `getEngineMaxTime` (engines/index.ts) -/

/-- Engine selector from types/request.ts
(`z.enum(["chrome-cdp", "playwright", "tlsclient"])`). -/
inductive EngineType
  | chromeCdp
  | playwright
  | tlsclient
deriving DecidableEq, Repr

/-- Scroll direction of the scroll action. -/
inductive ScrollDirection
  | up
  | down
deriving DecidableEq, Repr

/-- `waitUntil` of the request schema. -/
inductive WaitUntilOpt
  | load
  | domcontentloaded
  | networkidle
deriving DecidableEq, Repr

/-- `sameSite` of the cookie schema. -/
inductive SameSiteOpt
  | strict
  | lax
  | noRestriction
deriving DecidableEq, Repr

/-- JSON values (JS object field order preserved). -/
inductive Json
  | str (s : String)
  | num (n : Int)
  | bool (b : Bool)
  | null
  | arr (elems : List Json)
  | obj (fields : List (String × Json))

/-- A parsed `Action` (the `actionSchema` discriminated union of
types/request.ts) with zod defaults applied: `wait.milliseconds`
defaults to 1000, `scroll.direction` to down, `screenshot.fullPage` to
false.  The source's `type` tag names the `typeText` constructor; the
`executeJavascript` metadata record is kept as raw JSON fields. -/
inductive ActionItem
  | wait (milliseconds : Int)
  | click (selector : String)
  | typeText (selector : String) (text : String)
  | scroll (direction : ScrollDirection) (amount : Option Int)
      (selector : Option String)
  | screenshot (fullPage : Bool) (viewport : Option (Int × Int))
  | scrape (selector : Option String)
  | executeJavascript (script : String)
      (metadata : Option (List (String × Json)))
  | pdf

/-- `cookieSchema` of types/request.ts, parsed form. -/
structure Cookie where
  name : String
  value : String
  domain : Option String
  path : Option String
  expires : Option Int
  httpOnly : Option Bool
  secure : Option Bool
  sameSite : Option SameSiteOpt

/-- `geolocationSchema` of types/request.ts, parsed form. -/
structure Geolocation where
  country : Option String
  languages : Option (List String)

/-- `proxyProfileSchema` of types/request.ts, parsed form. -/
structure ProxyProfile where
  server : String
  username : Option String
  password : Option String

/-- `scrapeRequestSchema` of types/request.ts, parsed form: fields with
zod defaults are plain, optional fields without a default are `Option`. -/
structure ScrapeRequest where
  url : String
  engine : EngineType
  headers : Option (List (String × String))
  cookies : Option (List Cookie)
  userAgent : Option String
  timeout : Int
  wait : Int
  actions : Option (List ActionItem)
  waitUntil : Option WaitUntilOpt
  waitForSelector : Option String
  screenshot : Bool
  fullPageScreenshot : Bool
  proxy : Option String
  proxyProfile : Option ProxyProfile
  mobileProxy : Option Bool
  stealth : Bool
  blockMedia : Bool
  blockAds : Bool
  mobile : Bool
  geolocation : Option Geolocation
  skipTlsVerification : Bool
  instantReturn : Bool
  priority : Int
  logRequest : Bool
  saveScrapeResultToGCS : Bool
  zeroDataRetention : Bool
  disableSmartWaitCache : Option Bool
  atsv : Option Bool
  disableJsDom : Option Bool

/-- The per-action contribution of `getEngineMaxTime`'s loop: a wait
action contributes its milliseconds (`?? 1000` is an identity on the
parsed type, where the zod default has been applied), every other action
250 ms. -/
def actionTimeOf : ActionItem → Int
  | .wait ms => ms
  | _ => 250

/-- `getEngineMaxTime(request)` from engines/index.ts.  On the parsed
request type `engine`, `timeout` and `wait` are always present (zod
defaults), so the source's `??` fallbacks on them are identities; the
source's `default` switch branch coincides with the chrome-cdp branch. -/
def getEngineMaxTime (r : ScrapeRequest) : Int :=
  let baseTimeout := r.timeout
  let waitTime := r.wait
  match r.engine with
  | .tlsclient => min 15000 baseTimeout
  | .playwright => min (waitTime + 30000) baseTimeout
  | .chromeCdp =>
    let actionTime :=
      (r.actions.getD []).foldl (fun acc a => acc + actionTimeOf a) 0
    min (waitTime + actionTime + 30000) baseTimeout

/-! ## Job lifecycle: `executeJob` (job-manager.ts) -/

/-- Job status from job-manager.ts. -/
inductive JobStatus
  | queued
  | processing
  | completed
  | failed
deriving DecidableEq, Repr

/-- The fields of a pipeline `SuccessResponse` that `executeJob`
inspects: `content` (always a string) and the optional `pageError`. -/
structure PipelineResult where
  content : String
  pageError : Option String

/-- The response `executeJob` returns: the success result, or an
`ErrorResponse {error}`. -/
inductive JobResponse
  | success (r : PipelineResult)
  | error (e : String)

/-- JS truthiness of an optional string (`result.pageError`). -/
def truthyOptStr : Option String → Bool
  | none => false
  | some s => !s.isEmpty

/-- `executeJob` from job-manager.ts as a function of the pipeline
outcome (`scrape` returning a result or throwing a message).  The first
component records the `updateJobStatus` calls in order (status, stored
result); the second component is the returned response. -/
def executeJob (outcome : Except String PipelineResult) :
    List (JobStatus × Option JobResponse) × JobResponse :=
  match outcome with
  | .ok result =>
    if truthyOptStr result.pageError ∧ result.content = "" then
      ([(.processing, none),
        (.failed, some (.error (result.pageError.getD "")))],
       .error (result.pageError.getD ""))
    else
      ([(.processing, none), (.completed, some (.success result))],
       .success result)
  | .error msg =>
    ([(.processing, none), (.failed, some (.error msg))], .error msg)

/-! ## Browser pool page slots (playwright.ts) -/

/-- A slot operation performed by the scrape pipeline. -/
inductive SlotOp
  | acquire
  | release
deriving DecidableEq, Repr

/-- The page-slot state of playwright.ts: the module-level `activePages`
counter and the FIFO `pageQueue` of waiting callers (identified by ids).
`holding` is an auxiliary counter (not a source variable) recording how
many callers currently hold a slot; it expresses the call protocol that
`releasePageSlot` is invoked only by a slot holder. -/
structure PoolState where
  activePages : ℕ
  pageQueue : List ℕ
  holding : ℕ
deriving DecidableEq, Repr

/-- `acquirePageSlot` from playwright.ts: grant immediately
(incrementing `activePages`) when below `MAX_CONCURRENT_PAGES`, else
append the caller to the FIFO queue.  The boolean reports whether the
slot was granted immediately. -/
def acquirePageSlot (MAX : ℕ) (id : ℕ) (s : PoolState) : PoolState × Bool :=
  if s.activePages < MAX then
    ({ s with activePages := s.activePages + 1,
              holding := s.holding + 1 }, true)
  else
    ({ s with pageQueue := s.pageQueue ++ [id] }, false)

/-- `releasePageSlot` from playwright.ts: resolve the head waiter (who
becomes a holder; the counter is not decremented) when the queue is
non-empty, else decrement the counter.  Also returns the resumed
waiter, if any. -/
def releasePageSlot (s : PoolState) : PoolState × Option ℕ :=
  match s.pageQueue with
  | next :: rest => ({ s with pageQueue := rest }, some next)
  | [] => ({ s with activePages := s.activePages - 1,
                    holding := s.holding - 1 }, none)

/-- One pool transition: some caller acquires, or a current holder
releases. -/
inductive PoolStep (MAX : ℕ) : PoolState → PoolState → Prop
  | acquire (id : ℕ) {s : PoolState} :
      PoolStep MAX s (acquirePageSlot MAX id s).1
  | release {s : PoolState} (hhold : 0 < s.holding) :
      PoolStep MAX s (releasePageSlot s).1

/-- Pool states reachable from the initial state (0 active, no waiters,
no holders). -/
inductive PoolReachable (MAX : ℕ) : PoolState → Prop
  | init : PoolReachable MAX ⟨0, [], 0⟩
  | step {s t : PoolState} : PoolReachable MAX s → PoolStep MAX s t →
      PoolReachable MAX t

/-- The pool invariant: the counter is bounded by MAX, equals the number
of holders, and sits at MAX whenever anyone is queued. -/
def poolInv (MAX : ℕ) (s : PoolState) : Prop :=
  s.activePages ≤ MAX ∧ s.activePages = s.holding
    ∧ (s.pageQueue ≠ [] → s.activePages = MAX)

/-- Scrape pipeline outcomes relevant to slot accounting in
`scrapeWithPlaywright`: normal completion, a caught error folded into a
`pageError` response, or an ActionError rethrown by the catch block. -/
inductive ScrapeOutcome
  | success
  | foldedError (message : String)
  | actionError (message : String)

/-- The slot-relevant skeleton of `scrapeWithPlaywright`: one
`acquirePageSlot` before the try block, then the body outcome, then the
`finally` block's single `releasePageSlot` on every exit path (`.ok
true` is the success response, `.ok false` the folded pageError
response, `.error` the rethrown ActionError). -/
def scrapeWithPlaywrightSlotOps (o : ScrapeOutcome) :
    List SlotOp × Except String Bool :=
  let bodyOutcome : Except String Bool :=
    match o with
    | .success => .ok true
    | .foldedError _ => .ok false
    | .actionError m => .error m
  ([SlotOp.acquire] ++ [SlotOp.release], bodyOutcome)

/-! ## DELETE /v1/scrape/:jobId (routes/delete.ts, job-manager.ts) -/

/-- The in-memory job store abstracted to its set of job ids (the
DELETE handler consults only presence). -/
abbrev JobStore := List JSStr

/-- `deleteJob` from job-manager.ts: `jobs.delete(jobId)` removes the
key from the keyed map and returns whether it was present. -/
def deleteJob (store : JobStore) (jobId : JSStr) : JobStore × Bool :=
  (store.filter (fun k => decide (k ≠ jobId)), decide (jobId ∈ store))

/-- The body of a DELETE /v1/scrape/:jobId response. -/
structure DeleteResponseBody where
  success : Bool
  message : Option String
deriving DecidableEq, Repr

/-- The DELETE /v1/scrape/:jobId handler of routes/delete.ts: when
`getJob` finds nothing it answers 200 `{success: true, message: "Job
not found or already deleted"}`; otherwise it deletes the job and
answers 200 `{success: <deleted>}` with no message field. -/
def deleteHandlerV1 (store : JobStore) (jobId : JSStr) :
    JobStore × ℕ × DeleteResponseBody :=
  if jobId ∈ store then
    ((deleteJob store jobId).1, 200, ⟨(deleteJob store jobId).2, none⟩)
  else
    (store, 200, ⟨true, some "Job not found or already deleted"⟩)

/-! ## Request validation: `scrapeRequestSchema` (types/request.ts)

The schema is a plain `z.object({...})` without `.strict()`: zod v3
parses each declared key and strips unrecognized keys instead of
rejecting them.  The parser below transcribes the schema field for
field over the JSON model; `parseScrapeRequestWith` abstracts the field
getter so that the unknown-field behaviour can be stated once. -/

/-- Field lookup in a JSON object (JS object keys are unique; zod reads
each declared key). -/
def getField (fields : List (String × Json)) (key : String) : Option Json :=
  fields.lookup key

/-- `z.string()`. -/
def parseStr : Json → Option String
  | .str s => some s
  | _ => none

/-- `z.number()` (embedded over integers). -/
def parseNum : Json → Option Int
  | .num n => some n
  | _ => none

/-- `z.boolean()`. -/
def parseBool : Json → Option Bool
  | .bool b => some b
  | _ => none

/-- A `.optional()` field value: absent is fine; a present value must
parse. -/
def optVal {α : Type} (v : Option Json) (p : Json → Option α) :
    Option (Option α) :=
  match v with
  | none => some none
  | some j => (p j).map some

/-- A `.optional().default(d)` (or `.default(d)`) field value: absent
yields the default; a present value must parse. -/
def defVal {α : Type} (v : Option Json) (p : Json → Option α) (d : α) :
    Option α :=
  match v with
  | none => some d
  | some j => p j

/-- A required field value. -/
def reqVal {α : Type} (v : Option Json) (p : Json → Option α) : Option α :=
  match v with
  | none => none
  | some j => p j

/-- Modelled from zod's `z.string().url()` (which accepts exactly the
strings the WHATWG `new URL` constructor accepts): split off the part
before the first colon as the scheme. -/
def urlSchemeSplit : List Char → Option (List Char × List Char)
  | [] => none
  | c :: rest =>
    if c = ':' then some ([], rest)
    else (urlSchemeSplit rest).map (fun p => (c :: p.1, p.2))

/-- Modelled from zod's `z.string().url()`: a non-empty alphabetic
scheme, a colon, and a non-empty remainder (approximation of WHATWG URL
validity; "https://example.com" is accepted). -/
def isValidUrl (s : String) : Bool :=
  match urlSchemeSplit s.data with
  | some (scheme, rest) =>
    !scheme.isEmpty && scheme.all (fun c => c.isAlpha) && !rest.isEmpty
  | none => false

/-- `z.enum(["chrome-cdp", "playwright", "tlsclient"])`. -/
def parseEngine : Json → Option EngineType
  | .str "chrome-cdp" => some .chromeCdp
  | .str "playwright" => some .playwright
  | .str "tlsclient" => some .tlsclient
  | _ => none

/-- `z.enum(["load", "domcontentloaded", "networkidle"])`. -/
def parseWaitUntil : Json → Option WaitUntilOpt
  | .str "load" => some .load
  | .str "domcontentloaded" => some .domcontentloaded
  | .str "networkidle" => some .networkidle
  | _ => none

/-- `z.enum(["Strict", "Lax", "None"])`. -/
def parseSameSite : Json → Option SameSiteOpt
  | .str "Strict" => some .strict
  | .str "Lax" => some .lax
  | .str "None" => some .noRestriction
  | _ => none

/-- `z.enum(["up", "down"])`. -/
def parseScrollDirection : Json → Option ScrollDirection
  | .str "up" => some .up
  | .str "down" => some .down
  | _ => none

/-- `z.record(z.string())`. -/
def parseStringRecord : Json → Option (List (String × String))
  | .obj fields =>
    fields.mapM (fun kv => (parseStr kv.2).map (fun v => (kv.1, v)))
  | _ => none

/-- `z.record(z.unknown())`: any object, fields kept raw. -/
def parseAnyRecord : Json → Option (List (String × Json))
  | .obj fields => some fields
  | _ => none

/-- `z.array(z.string())`. -/
def parseStrArray : Json → Option (List String)
  | .arr xs => xs.mapM parseStr
  | _ => none

/-- The viewport object of the screenshot action. -/
def parseViewport : Json → Option (Int × Int)
  | .obj fields => do
    let w ← reqVal (getField fields "width") parseNum
    let h ← reqVal (getField fields "height") parseNum
    some (w, h)
  | _ => none

/-- `cookieSchema` (a non-strict `z.object`, unknown keys stripped). -/
def parseCookie : Json → Option Cookie
  | .obj fields => do
    let name ← reqVal (getField fields "name") parseStr
    let value ← reqVal (getField fields "value") parseStr
    let domain ← optVal (getField fields "domain") parseStr
    let path ← optVal (getField fields "path") parseStr
    let expires ← optVal (getField fields "expires") parseNum
    let httpOnly ← optVal (getField fields "httpOnly") parseBool
    let secure ← optVal (getField fields "secure") parseBool
    let sameSite ← optVal (getField fields "sameSite") parseSameSite
    some ⟨name, value, domain, path, expires, httpOnly, secure, sameSite⟩
  | _ => none

/-- `z.array(cookieSchema)`. -/
def parseCookieArray : Json → Option (List Cookie)
  | .arr xs => xs.mapM parseCookie
  | _ => none

/-- `geolocationSchema`. -/
def parseGeolocation : Json → Option Geolocation
  | .obj fields => do
    let country ← optVal (getField fields "country") parseStr
    let languages ← optVal (getField fields "languages") parseStrArray
    some ⟨country, languages⟩
  | _ => none

/-- `proxyProfileSchema`. -/
def parseProxyProfile : Json → Option ProxyProfile
  | .obj fields => do
    let server ← reqVal (getField fields "server") parseStr
    let username ← optVal (getField fields "username") parseStr
    let password ← optVal (getField fields "password") parseStr
    some ⟨server, username, password⟩
  | _ => none

/-- `actionSchema`: the discriminated union on the `type` tag. -/
def parseAction : Json → Option ActionItem
  | .obj fields =>
    match getField fields "type" with
    | some (.str "wait") => do
      let ms ← defVal (getField fields "milliseconds") parseNum 1000
      some (.wait ms)
    | some (.str "click") => do
      let sel ← reqVal (getField fields "selector") parseStr
      some (.click sel)
    | some (.str "type") => do
      let sel ← reqVal (getField fields "selector") parseStr
      let text ← reqVal (getField fields "text") parseStr
      some (.typeText sel text)
    | some (.str "scroll") => do
      let dir ← defVal (getField fields "direction") parseScrollDirection .down
      let amount ← optVal (getField fields "amount") parseNum
      let sel ← optVal (getField fields "selector") parseStr
      some (.scroll dir amount sel)
    | some (.str "screenshot") => do
      let fullPage ← defVal (getField fields "fullPage") parseBool false
      let viewport ← optVal (getField fields "viewport") parseViewport
      some (.screenshot fullPage viewport)
    | some (.str "scrape") => do
      let sel ← optVal (getField fields "selector") parseStr
      some (.scrape sel)
    | some (.str "executeJavascript") => do
      let script ← reqVal (getField fields "script") parseStr
      let metadata ← optVal (getField fields "metadata") parseAnyRecord
      some (.executeJavascript script metadata)
    | some (.str "pdf") => some .pdf
    | _ => none
  | _ => none

/-- `z.array(actionSchema)`. -/
def parseActionArray : Json → Option (List ActionItem)
  | .arr xs => xs.mapM parseAction
  | _ => none

/-- The declared keys of `scrapeRequestSchema`. -/
def SCRAPE_REQUEST_KEYS : List String :=
  ["url", "engine", "headers", "cookies", "userAgent", "timeout", "wait",
   "actions", "waitUntil", "waitForSelector", "screenshot",
   "fullPageScreenshot", "proxy", "proxyProfile", "mobileProxy", "stealth",
   "blockMedia", "blockAds", "mobile", "geolocation", "skipTlsVerification",
   "instantReturn", "priority", "logRequest", "saveScrapeResultToGCS",
   "zeroDataRetention", "disableSmartWaitCache", "atsv", "disableJsDom"]

/-- The identity, engine, header and timing fields of
`scrapeRequestSchema` ("Required", "Engine selection", "Headers and
cookies", "Timing" groups of types/request.ts). -/
structure ReqCoreFields where
  url : String
  engine : EngineType
  headers : Option (List (String × String))
  cookies : Option (List Cookie)
  userAgent : Option String
  timeout : Int
  wait : Int

/-- The rendering and screenshot fields ("Rendering options" and
"Screenshot" groups). -/
structure ReqRenderFields where
  actions : Option (List ActionItem)
  waitUntil : Option WaitUntilOpt
  waitForSelector : Option String
  screenshot : Bool
  fullPageScreenshot : Bool

/-- The anti-bot and proxy fields ("Anti-bot / proxy" group and
`blockMedia`/`blockAds`). -/
structure ReqProxyFields where
  proxy : Option String
  proxyProfile : Option ProxyProfile
  mobileProxy : Option Bool
  stealth : Bool
  blockMedia : Bool
  blockAds : Bool

/-- The remaining "Other options" and "Job options" fields. -/
structure ReqJobFields where
  mobile : Bool
  geolocation : Option Geolocation
  skipTlsVerification : Bool
  instantReturn : Bool
  priority : Int
  logRequest : Bool

/-- The data-retention and engine-specific trailing fields. -/
structure ReqTailFields where
  saveScrapeResultToGCS : Bool
  zeroDataRetention : Bool
  disableSmartWaitCache : Option Bool
  atsv : Option Bool
  disableJsDom : Option Bool

/-- Parse the core group of `scrapeRequestSchema` fields
(`z.string().url()` on `url`, the engine enum with its default, the
header record, cookie array, user agent and the timing defaults). -/
def parseReqCore (get : String → Option Json) : Option ReqCoreFields := do
  let urlRaw ← reqVal (get "url") parseStr
  let url ← if isValidUrl urlRaw then some urlRaw else none
  let engine ← defVal (get "engine") parseEngine .chromeCdp
  let headers ← optVal (get "headers") parseStringRecord
  let cookies ← optVal (get "cookies") parseCookieArray
  let userAgent ← optVal (get "userAgent") parseStr
  let timeout ← defVal (get "timeout") parseNum 300000
  let wait ← defVal (get "wait") parseNum 0
  some ⟨url, engine, headers, cookies, userAgent, timeout, wait⟩

/-- Parse the rendering and screenshot group of fields. -/
def parseReqRender (get : String → Option Json) : Option ReqRenderFields := do
  let actions ← optVal (get "actions") parseActionArray
  let waitUntil ← optVal (get "waitUntil") parseWaitUntil
  let waitForSelector ← optVal (get "waitForSelector") parseStr
  let screenshot ← defVal (get "screenshot") parseBool false
  let fullPageScreenshot ← defVal (get "fullPageScreenshot") parseBool false
  some ⟨actions, waitUntil, waitForSelector, screenshot, fullPageScreenshot⟩

/-- Parse the anti-bot and proxy group of fields. -/
def parseReqProxy (get : String → Option Json) : Option ReqProxyFields := do
  let proxy ← optVal (get "proxy") parseStr
  let proxyProfile ← optVal (get "proxyProfile") parseProxyProfile
  let mobileProxy ← optVal (get "mobileProxy") parseBool
  let stealth ← defVal (get "stealth") parseBool true
  let blockMedia ← defVal (get "blockMedia") parseBool true
  let blockAds ← defVal (get "blockAds") parseBool true
  some ⟨proxy, proxyProfile, mobileProxy, stealth, blockMedia, blockAds⟩

/-- Parse the remaining option and job fields. -/
def parseReqJob (get : String → Option Json) : Option ReqJobFields := do
  let mobile ← defVal (get "mobile") parseBool false
  let geolocation ← optVal (get "geolocation") parseGeolocation
  let skipTlsVerification ← defVal (get "skipTlsVerification") parseBool false
  let instantReturn ← defVal (get "instantReturn") parseBool false
  let priority ← defVal (get "priority") parseNum 1
  let logRequest ← defVal (get "logRequest") parseBool true
  some ⟨mobile, geolocation, skipTlsVerification, instantReturn, priority,
    logRequest⟩

/-- Parse the data-retention and engine-specific trailing fields. -/
def parseReqTail (get : String → Option Json) : Option ReqTailFields := do
  let saveScrapeResultToGCS ←
    defVal (get "saveScrapeResultToGCS") parseBool false
  let zeroDataRetention ← defVal (get "zeroDataRetention") parseBool false
  let disableSmartWaitCache ← optVal (get "disableSmartWaitCache") parseBool
  let atsv ← optVal (get "atsv") parseBool
  let disableJsDom ← optVal (get "disableJsDom") parseBool
  some ⟨saveScrapeResultToGCS, zeroDataRetention, disableSmartWaitCache,
    atsv, disableJsDom⟩

/-- `scrapeRequestSchema` parsing, abstracted over the field getter.
Only the declared keys of the schema are consulted (zod's default
"strip" mode for unknown keys), each exactly once, via the five field
groups above. -/
def parseScrapeRequestWith (get : String → Option Json) :
    Option ScrapeRequest := do
  let core ← parseReqCore get
  let render ← parseReqRender get
  let proxyGroup ← parseReqProxy get
  let jobGroup ← parseReqJob get
  let tailGroup ← parseReqTail get
  some ⟨core.url, core.engine, core.headers, core.cookies, core.userAgent,
    core.timeout, core.wait, render.actions, render.waitUntil,
    render.waitForSelector, render.screenshot, render.fullPageScreenshot,
    proxyGroup.proxy, proxyGroup.proxyProfile, proxyGroup.mobileProxy,
    proxyGroup.stealth, proxyGroup.blockMedia, proxyGroup.blockAds,
    jobGroup.mobile, jobGroup.geolocation, jobGroup.skipTlsVerification,
    jobGroup.instantReturn, jobGroup.priority, jobGroup.logRequest,
    tailGroup.saveScrapeResultToGCS, tailGroup.zeroDataRetention,
    tailGroup.disableSmartWaitCache, tailGroup.atsv, tailGroup.disableJsDom⟩

/-- `scrapeRequestSchema.safeParse` on a JSON value: an object is parsed
by its declared keys, anything else fails. -/
def parseScrapeRequest : Json → Option ScrapeRequest
  | .obj fields => parseScrapeRequestWith (fun k => getField fields k)
  | _ => none

/-! ## Theorems -/

theorem applyRules_cons_of_some {r : BlockRule} {rs : List BlockRule}
    {s : Int} {b : JSStr} {h : Headers} {res : BlockDetectionResult}
    (hr : r s b h = some res) : applyRules (r :: rs) s b h = res := by
  simp [applyRules, hr]

theorem applyRules_cons_of_none {r : BlockRule} {rs : List BlockRule}
    {s : Int} {b : JSStr} {h : Headers}
    (hr : r s b h = none) : applyRules (r :: rs) s b h = applyRules rs s b h := by
  simp [applyRules, hr]

/-- `bodyChain` is the first-match run of the six body-content rules. -/
theorem bodyChain_eq_applyRules (s : Int) (b : JSStr) (h : Headers) :
    bodyChain s b = applyRules
      [ruleBodyCaptcha, ruleBodyCloudflare, ruleBodyBotDetection,
       ruleBodyRateLimit, ruleBodyIpBlock, ruleEmptyBody200] s b h := by
  unfold bodyChain
  by_cases c6 : ContainsAny (lowerChars b) CAPTCHA_PATTERNS
  · rw [if_pos c6, applyRules_cons_of_some
      (show ruleBodyCaptcha s b h = _ from by
        simp only [ruleBodyCaptcha]; rw [if_pos c6])]
  · rw [if_neg c6, applyRules_cons_of_none
      (by simp only [ruleBodyCaptcha]; rw [if_neg c6])]
    by_cases c7 : ContainsAny (lowerChars b) CLOUDFLARE_PATTERNS
    · rw [if_pos c7, applyRules_cons_of_some
        (show ruleBodyCloudflare s b h = _ from by
          simp only [ruleBodyCloudflare]; rw [if_pos c7])]
    · rw [if_neg c7, applyRules_cons_of_none
        (by simp only [ruleBodyCloudflare]; rw [if_neg c7])]
      by_cases c8 : ContainsAny (lowerChars b) BOT_DETECTION_PATTERNS
      · rw [if_pos c8, applyRules_cons_of_some
          (show ruleBodyBotDetection s b h = _ from by
            simp only [ruleBodyBotDetection]; rw [if_pos c8])]
      · rw [if_neg c8, applyRules_cons_of_none
          (by simp only [ruleBodyBotDetection]; rw [if_neg c8])]
        by_cases c9 : ContainsAny (lowerChars b) RATE_LIMIT_PATTERNS
        · rw [if_pos c9, applyRules_cons_of_some
            (show ruleBodyRateLimit s b h = _ from by
              simp only [ruleBodyRateLimit]; rw [if_pos c9])]
        · rw [if_neg c9, applyRules_cons_of_none
            (by simp only [ruleBodyRateLimit]; rw [if_neg c9])]
          by_cases c10 : ContainsAny (lowerChars b) IP_BLOCK_PATTERNS
          · rw [if_pos c10, applyRules_cons_of_some
              (show ruleBodyIpBlock s b h = _ from by
                simp only [ruleBodyIpBlock]; rw [if_pos c10])]
          · rw [if_neg c10, applyRules_cons_of_none
              (by simp only [ruleBodyIpBlock]; rw [if_neg c10])]
            by_cases c11 : jsTrimEmpty b = true ∧ s = 200
            · rw [if_pos c11, applyRules_cons_of_some
                (show ruleEmptyBody200 s b h = _ from by
                  simp only [ruleEmptyBody200]; rw [if_pos c11])]
            · rw [if_neg c11, applyRules_cons_of_none
                (by simp only [ruleEmptyBody200]; rw [if_neg c11])]
              rfl

/-- `detectBlock` is the first-match run of `fireEngineRules`. -/
theorem detectBlock_eq_applyRules (s : Int) (b : JSStr) (h : Headers) :
    detectBlock s b h = applyRules fireEngineRules s b h := by
  unfold fireEngineRules detectBlock
  by_cases c1 : rateLimitHeaderHit h = true
  · rw [if_pos c1, applyRules_cons_of_some
      (show ruleRateLimitHeaders s b h = _ from by
        simp only [ruleRateLimitHeaders]; rw [if_pos c1])]
  · rw [if_neg c1, applyRules_cons_of_none
      (by simp only [ruleRateLimitHeaders]; rw [if_neg c1])]
    by_cases c2 : s = 429
    · rw [if_pos c2, applyRules_cons_of_some
        (show ruleStatus429 s b h = _ from by
          simp only [ruleStatus429]; rw [if_pos c2])]
    · rw [if_neg c2, applyRules_cons_of_none
        (by simp only [ruleStatus429]; rw [if_neg c2])]
      by_cases c3 : s = 403
      · rw [if_pos c3, applyRules_cons_of_some
          (show ruleStatus403 s b h = _ from by
            simp only [ruleStatus403]; rw [if_pos c3])]
      · rw [if_neg c3, applyRules_cons_of_none
          (by simp only [ruleStatus403]; rw [if_neg c3])]
        by_cases c4 : s = 503
        · rw [if_pos c4, applyRules_cons_of_some
            (show ruleStatus503 s b h = _ from by
              simp only [ruleStatus503]; rw [if_pos c4])]
        · rw [if_neg c4, applyRules_cons_of_none
            (by simp only [ruleStatus503]; rw [if_neg c4])]
          by_cases c5 : s = 401 ∧ ContainsAny (lowerChars b) IP_BLOCK_PATTERNS
          · rw [if_pos c5, applyRules_cons_of_some
              (show ruleStatus401 s b h = _ from by
                simp only [ruleStatus401]; rw [if_pos c5])]
          · rw [if_neg c5, applyRules_cons_of_none
              (by simp only [ruleStatus401]; rw [if_neg c5])]
            exact bodyChain_eq_applyRules s b h

/-- C1 (amended): `detectBlock` evaluates the ordered precedence table
first-match-wins — rate-limit headers, status 429, 403, 503, 401, the
five body-pattern rules, empty-body-at-200, else not blocked — where
rule 1 requires a truthy (non-empty) `retry-after` value and rule 5
fires only when status 401 comes with an IP-block pattern (otherwise the
classifier falls through to the body rules instead of returning
not-blocked); on the claim's three literal inputs it returns
ip_block/0.8, rate_limited/0.95 and rate_limited/0.95. -/
theorem C1_detectBlock_precedence_table :
    (∀ (s : Int) (b : JSStr) (h : Headers),
        detectBlock s b h = applyRules fireEngineRules s b h)
    ∧ detectBlock 403 [] [] = ⟨true, some .ip_block, 0.8⟩
    ∧ detectBlock 429 [] [] = ⟨true, some .rate_limited, 0.95⟩
    ∧ detectBlock 200 [] [("Retry-After".data, "60".data)]
        = ⟨true, some .rate_limited, 0.95⟩ :=
  ⟨detectBlock_eq_applyRules, rfl, rfl, rfl⟩

/-- C1 counterexample: `detectBlock` does not implement the §4.1 table
on every input.  On status 401 with body "captcha" the source returns
captcha/0.9 while the table as written (rule 5: "else not blocked")
returns not-blocked; and with a present-but-empty `retry-after` header
the source returns not-blocked while the table's rule 1 ("retry-after
present") returns rate_limited/0.95. -/
theorem C1_spec_table_counterexample :
    detectBlock 401 "captcha".data [] = ⟨true, some .captcha, 0.9⟩
    ∧ applyRules specTable441 401 "captcha".data [] = ⟨false, none, 0⟩
    ∧ detectBlock 200 "x".data [("retry-after".data, "".data)]
        = ⟨false, none, 0⟩
    ∧ applyRules specTable441 200 "x".data [("retry-after".data, "".data)]
        = ⟨true, some .rate_limited, 0.95⟩ :=
  ⟨rfl, rfl, rfl, rfl⟩

/-- C3 (amended): at status 401 with no rate-limit header, an IP-block
pattern in the lowercased body yields ip_block/0.7; otherwise the
classifier does not return not-blocked but falls through to the
body-content checks (`bodyChain`). -/
theorem C3_status401_behavior (b : JSStr) (h : Headers)
    (hh : rateLimitHeaderHit h = false) :
    (ContainsAny (lowerChars b) IP_BLOCK_PATTERNS →
        detectBlock 401 b h = ⟨true, some .ip_block, 0.7⟩)
    ∧ (¬ ContainsAny (lowerChars b) IP_BLOCK_PATTERNS →
        detectBlock 401 b h = bodyChain 401 b) := by
  have h1 : ¬ (rateLimitHeaderHit h = true) := by simp [hh]
  have h2 : ¬ ((401 : Int) = 429) := by decide
  have h3 : ¬ ((401 : Int) = 403) := by decide
  have h4 : ¬ ((401 : Int) = 503) := by decide
  constructor
  · intro hip
    unfold detectBlock
    rw [if_neg h1, if_neg h2, if_neg h3, if_neg h4, if_pos ⟨rfl, hip⟩]
  · intro hip
    unfold detectBlock
    rw [if_neg h1, if_neg h2, if_neg h3, if_neg h4,
      if_neg (fun hc => hip hc.2)]

/-- Witness for C3: body "ip blocked" triggers the 401 rule; body
"too many requests" has no IP-block pattern and falls through. -/
theorem C3_status401_behavior_witness :
    detectBlock 401 "ip blocked".data [] = ⟨true, some .ip_block, 0.7⟩
    ∧ detectBlock 401 "too many requests".data []
        = bodyChain 401 "too many requests".data :=
  ⟨(C3_status401_behavior "ip blocked".data [] rfl).1 (by decide),
   (C3_status401_behavior "too many requests".data [] rfl).2 (by decide)⟩

/-- C3 counterexample: status 401, no rate-limit header, and a body with
no IP-block pattern — the claim says not blocked, but the classifier
falls through to the body rules and reports rate_limited/0.75. -/
theorem C3_counterexample :
    ¬ ContainsAny (lowerChars "too many requests".data) IP_BLOCK_PATTERNS
    ∧ detectBlock 401 "too many requests".data []
        = ⟨true, some .rate_limited, 0.75⟩ :=
  ⟨by decide, rfl⟩

/-- Case analysis on the body-content tail: every result is one of the
high-confidence literals, the two low-confidence results (with the
conditions under which they arise), or not-blocked. -/
theorem bodyChain_shape (s : Int) (b : JSStr) :
    bodyChain s b ∈ blockedHighResults
    ∨ (bodyChain s b = ⟨true, some .ip_block, 0.4⟩
        ∧ ContainsAny (lowerChars b) IP_BLOCK_PATTERNS ∧ 20000 ≤ b.length)
    ∨ (bodyChain s b = ⟨true, some .unknown, 0.3⟩
        ∧ (jsTrimEmpty b = true ∧ s = 200))
    ∨ bodyChain s b = ⟨false, none, 0⟩ := by
  unfold bodyChain
  by_cases c1 : ContainsAny (lowerChars b) CAPTCHA_PATTERNS
  · rw [if_pos c1]
    by_cases d1 : b.length < 50000
    · rw [if_pos d1]; exact Or.inl (by simp [blockedHighResults])
    · rw [if_neg d1]; exact Or.inl (by simp [blockedHighResults])
  · rw [if_neg c1]
    by_cases c2 : ContainsAny (lowerChars b) CLOUDFLARE_PATTERNS
    · rw [if_pos c2]
      by_cases d2 : b.length < 15000
      · rw [if_pos d2]; exact Or.inl (by simp [blockedHighResults])
      · rw [if_neg d2]; exact Or.inr (Or.inr (Or.inr rfl))
    · rw [if_neg c2]
      by_cases c3 : ContainsAny (lowerChars b) BOT_DETECTION_PATTERNS
      · rw [if_pos c3]
        by_cases d3 : b.length < 20000
        · rw [if_pos d3]; exact Or.inl (by simp [blockedHighResults])
        · rw [if_neg d3]; exact Or.inl (by simp [blockedHighResults])
      · rw [if_neg c3]
        by_cases c4 : ContainsAny (lowerChars b) RATE_LIMIT_PATTERNS
        · rw [if_pos c4]; exact Or.inl (by simp [blockedHighResults])
        · rw [if_neg c4]
          by_cases c5 : ContainsAny (lowerChars b) IP_BLOCK_PATTERNS
          · rw [if_pos c5]
            by_cases d5 : b.length < 20000
            · rw [if_pos d5]; exact Or.inl (by simp [blockedHighResults])
            · rw [if_neg d5]
              exact Or.inr (Or.inl ⟨rfl, c5, by omega⟩)
          · rw [if_neg c5]
            by_cases c6 : jsTrimEmpty b = true ∧ s = 200
            · rw [if_pos c6]; exact Or.inr (Or.inr (Or.inl ⟨rfl, c6⟩))
            · rw [if_neg c6]; exact Or.inr (Or.inr (Or.inr rfl))

/-- Case analysis on the whole classifier. -/
theorem detectBlock_shape (s : Int) (b : JSStr) (h : Headers) :
    detectBlock s b h ∈ blockedHighResults
    ∨ (detectBlock s b h = ⟨true, some .ip_block, 0.4⟩
        ∧ ContainsAny (lowerChars b) IP_BLOCK_PATTERNS ∧ 20000 ≤ b.length)
    ∨ (detectBlock s b h = ⟨true, some .unknown, 0.3⟩
        ∧ (jsTrimEmpty b = true ∧ s = 200))
    ∨ detectBlock s b h = ⟨false, none, 0⟩ := by
  unfold detectBlock
  by_cases c1 : rateLimitHeaderHit h = true
  · rw [if_pos c1]; exact Or.inl (by simp [blockedHighResults])
  · rw [if_neg c1]
    by_cases c2 : s = 429
    · rw [if_pos c2]; exact Or.inl (by simp [blockedHighResults])
    · rw [if_neg c2]
      by_cases c3 : s = 403
      · rw [if_pos c3]
        by_cases d3 : ContainsAny (lowerChars b) CAPTCHA_PATTERNS
        · rw [if_pos d3]; exact Or.inl (by simp [blockedHighResults])
        · rw [if_neg d3]
          by_cases e3 : ContainsAny (lowerChars b) BOT_DETECTION_PATTERNS
          · rw [if_pos e3]; exact Or.inl (by simp [blockedHighResults])
          · rw [if_neg e3]; exact Or.inl (by simp [blockedHighResults])
      · rw [if_neg c3]
        by_cases c4 : s = 503
        · rw [if_pos c4]
          by_cases d4 : ContainsAny (lowerChars b) CLOUDFLARE_PATTERNS
          · rw [if_pos d4]; exact Or.inl (by simp [blockedHighResults])
          · rw [if_neg d4]; exact Or.inl (by simp [blockedHighResults])
        · rw [if_neg c4]
          by_cases c5 : s = 401 ∧ ContainsAny (lowerChars b) IP_BLOCK_PATTERNS
          · rw [if_pos c5]; exact Or.inl (by simp [blockedHighResults])
          · rw [if_neg c5]
            exact bodyChain_shape s b

/-- C9: whenever the classifier reports not blocked, the result carries
no reason and confidence 0. -/
theorem C9_not_blocked_no_reason (s : Int) (b : JSStr) (h : Headers)
    (hnb : (detectBlock s b h).isBlocked = false) :
    (detectBlock s b h).reason = none
    ∧ (detectBlock s b h).confidence = 0 := by
  rcases detectBlock_shape s b h with hA | hB | hC | hD
  · simp only [blockedHighResults, List.mem_cons, List.not_mem_nil,
      or_false] at hA
    rcases hA with h' | h' | h' | h' | h' | h' | h' | h' | h' | h' <;>
      rw [h'] at hnb <;> simp at hnb
  · rw [hB.1] at hnb; simp at hnb
  · rw [hC.1] at hnb; simp at hnb
  · rw [hD]; exact ⟨rfl, rfl⟩

/-- Witness for C9: a plain 200 page is not blocked and indeed has no
reason and confidence 0. -/
theorem C9_not_blocked_no_reason_witness :
    (detectBlock 200 "hello".data []).isBlocked = false
    ∧ (detectBlock 200 "hello".data []).reason = none
    ∧ (detectBlock 200 "hello".data []).confidence = 0 :=
  ⟨rfl, (C9_not_blocked_no_reason 200 "hello".data [] rfl).1,
   (C9_not_blocked_no_reason 200 "hello".data [] rfl).2⟩

theorem attachBlockedReason_of_lt {r : BlockDetectionResult}
    (hlt : r.confidence < 0.5) : attachBlockedReason r = none := by
  unfold attachBlockedReason
  rw [if_neg (fun hc => absurd hc.2 (not_le.mpr hlt))]

/-- C10: every blocked result carries a reason and one of ten confidence
values between 0.3 and 0.95 (hence within [0, 1]); the only blocked
results below 0.5 are ip_block/0.4 (IP-block pattern, body length at
least 20000) and unknown/0.3 (whitespace-only body at status 200), and
results below 0.5 are never surfaced as `blockedReason` by the
pipelines. -/
theorem C10_blocked_confidence (s : Int) (b : JSStr) (h : Headers)
    (hb : (detectBlock s b h).isBlocked = true) :
    (detectBlock s b h).reason.isSome = true
    ∧ (detectBlock s b h).confidence ∈ CONFIDENCE_VALUES
    ∧ (0.3 : ℚ) ≤ (detectBlock s b h).confidence
    ∧ (detectBlock s b h).confidence ≤ 0.95
    ∧ (0 : ℚ) ≤ (detectBlock s b h).confidence
    ∧ (detectBlock s b h).confidence ≤ 1
    ∧ ((detectBlock s b h).confidence < 0.5 →
        ((detectBlock s b h).reason = some .ip_block
          ∧ (detectBlock s b h).confidence = 0.4
          ∧ ContainsAny (lowerChars b) IP_BLOCK_PATTERNS
          ∧ 20000 ≤ b.length)
        ∨ ((detectBlock s b h).reason = some .unknown
          ∧ (detectBlock s b h).confidence = 0.3
          ∧ (jsTrimEmpty b = true ∧ s = 200)))
    ∧ ((detectBlock s b h).confidence < 0.5 →
        attachBlockedReason (detectBlock s b h) = none) := by
  rcases detectBlock_shape s b h with hA | hB | hC | hD
  · simp only [blockedHighResults, List.mem_cons, List.not_mem_nil,
      or_false] at hA
    rcases hA with h' | h' | h' | h' | h' | h' | h' | h' | h' | h' <;>
      rw [h'] <;>
      exact ⟨rfl, by simp [CONFIDENCE_VALUES], by norm_num, by norm_num,
        by norm_num, by norm_num, fun hlt => absurd hlt (by norm_num),
        fun hlt => attachBlockedReason_of_lt hlt⟩
  · rw [hB.1]
    exact ⟨rfl, by simp [CONFIDENCE_VALUES], by norm_num, by norm_num,
      by norm_num, by norm_num,
      fun hlt => Or.inl ⟨rfl, rfl, hB.2.1, hB.2.2⟩,
      fun hlt => attachBlockedReason_of_lt hlt⟩
  · rw [hC.1]
    exact ⟨rfl, by simp [CONFIDENCE_VALUES], by norm_num, by norm_num,
      by norm_num, by norm_num,
      fun hlt => Or.inr ⟨rfl, rfl, hC.2⟩,
      fun hlt => attachBlockedReason_of_lt hlt⟩
  · rw [hD] at hb; simp at hb

/-- Witness for C10: status 429 is blocked and satisfies the shape. -/
theorem C10_blocked_confidence_witness :
    (detectBlock 429 [] []).isBlocked = true
    ∧ (detectBlock 429 [] []).reason.isSome = true
    ∧ (detectBlock 429 [] []).confidence ∈ CONFIDENCE_VALUES :=
  ⟨rfl, (C10_blocked_confidence 429 [] [] rfl).1,
   (C10_blocked_confidence 429 [] [] rfl).2.1⟩

/-- When no header or status rule fires, `detectBlock` runs exactly the
body-content checks. -/
theorem detectBlock_fallthrough (s : Int) (b : JSStr) (h : Headers)
    (hh : rateLimitHeaderHit h = false)
    (h429 : s ≠ 429) (h403 : s ≠ 403) (h503 : s ≠ 503)
    (h401 : ¬ (s = 401 ∧ ContainsAny (lowerChars b) IP_BLOCK_PATTERNS)) :
    detectBlock s b h = bodyChain s b := by
  unfold detectBlock
  rw [if_neg (by simp [hh]), if_neg h429, if_neg h403, if_neg h503,
    if_neg h401]

/-- C6: with no rate-limit header and a status outside
{429, 403, 503, 401}: a body with a Cloudflare pattern and no CAPTCHA
pattern is not blocked at length 15001 but robot_detected/0.85 at length
14999; a body with a CAPTCHA pattern is captcha/0.6 at length 50001 and
captcha/0.9 at length 49999. -/
theorem C6_size_boundaries (s : Int) (b : JSStr) (h : Headers)
    (hh : rateLimitHeaderHit h = false)
    (h429 : s ≠ 429) (h403 : s ≠ 403) (h503 : s ≠ 503) (h401 : s ≠ 401) :
    ((ContainsAny (lowerChars b) CLOUDFLARE_PATTERNS
        ∧ ¬ ContainsAny (lowerChars b) CAPTCHA_PATTERNS
        ∧ b.length = 15001) →
      detectBlock s b h = ⟨false, none, 0⟩)
    ∧ ((ContainsAny (lowerChars b) CLOUDFLARE_PATTERNS
        ∧ ¬ ContainsAny (lowerChars b) CAPTCHA_PATTERNS
        ∧ b.length = 14999) →
      detectBlock s b h = ⟨true, some .robot_detected, 0.85⟩)
    ∧ ((ContainsAny (lowerChars b) CAPTCHA_PATTERNS ∧ b.length = 50001) →
      detectBlock s b h = ⟨true, some .captcha, 0.6⟩)
    ∧ ((ContainsAny (lowerChars b) CAPTCHA_PATTERNS ∧ b.length = 49999) →
      detectBlock s b h = ⟨true, some .captcha, 0.9⟩) := by
  have hfall : detectBlock s b h = bodyChain s b :=
    detectBlock_fallthrough s b h hh h429 h403 h503
      (fun hc => h401 hc.1)
  refine ⟨fun hc => ?_, fun hc => ?_, fun hc => ?_, fun hc => ?_⟩
  · rw [hfall]
    unfold bodyChain
    rw [if_neg hc.2.1, if_pos hc.1, if_neg (by omega)]
  · rw [hfall]
    unfold bodyChain
    rw [if_neg hc.2.1, if_pos hc.1, if_pos (by omega)]
  · rw [hfall]
    unfold bodyChain
    rw [if_pos hc.1, if_neg (by omega)]
  · rw [hfall]
    unfold bodyChain
    rw [if_pos hc.1, if_pos (by omega)]

theorem cfBody_length (n : ℕ) : (cfBody n).length = 10 + n := by
  unfold cfBody
  rw [List.length_append, List.length_replicate,
    (by decide : "cloudflare".data.length = 10)]

theorem capBody_length (n : ℕ) : (capBody n).length = 7 + n := by
  unfold capBody
  rw [List.length_append, List.length_replicate,
    (by decide : "captcha".data.length = 7)]

theorem lower_cfBody (n : ℕ) : lowerChars (cfBody n) = cfBody n := by
  unfold lowerChars cfBody
  rw [List.map_append, List.map_replicate,
    (by decide : Char.toLower 'z' = 'z'),
    (by decide : "cloudflare".data.map Char.toLower = "cloudflare".data)]

theorem lower_capBody (n : ℕ) : lowerChars (capBody n) = capBody n := by
  unfold lowerChars capBody
  rw [List.map_append, List.map_replicate,
    (by decide : Char.toLower 'z' = 'z'),
    (by decide : "captcha".data.map Char.toLower = "captcha".data)]

theorem cfBody_has_cloudflare (n : ℕ) :
    ContainsAny (cfBody n) CLOUDFLARE_PATTERNS :=
  ⟨"cloudflare".data, by decide,
   ⟨[], List.replicate n 'z', by simp [cfBody]⟩⟩

theorem capBody_has_captcha (n : ℕ) :
    ContainsAny (capBody n) CAPTCHA_PATTERNS :=
  ⟨"captcha".data, by decide,
   ⟨[], List.replicate n 'z', by simp [capBody]⟩⟩

theorem not_infix_of_witness {p l : List Char} (c : Char) (hcp : c ∈ p)
    (hcl : c ∉ l) : ¬ p <:+: l :=
  fun hinf => hcl (hinf.sublist.subset hcp)

theorem not_mem_cfBody {c : Char} (h1 : c ∉ "cloudflare".data)
    (h2 : c ≠ 'z') (n : ℕ) : c ∉ cfBody n := by
  intro hmem
  unfold cfBody at hmem
  rcases List.mem_append.mp hmem with hA | hB
  · exact h1 hA
  · exact h2 (List.eq_of_mem_replicate hB)

theorem cfBody_no_captcha (n : ℕ) :
    ¬ ContainsAny (cfBody n) CAPTCHA_PATTERNS := by
  rintro ⟨p, hp, hinf⟩
  simp only [CAPTCHA_PATTERNS, List.map_cons, List.map_nil, List.mem_cons,
    List.not_mem_nil, or_false] at hp
  rcases hp with h | h | h | h | h | h | h | h | h | h <;> subst h
  · exact not_infix_of_witness 't' (by decide)
      (not_mem_cfBody (by decide) (by decide) n) hinf
  · exact not_infix_of_witness 't' (by decide)
      (not_mem_cfBody (by decide) (by decide) n) hinf
  · exact not_infix_of_witness 'h' (by decide)
      (not_mem_cfBody (by decide) (by decide) n) hinf
  · exact not_infix_of_witness 't' (by decide)
      (not_mem_cfBody (by decide) (by decide) n) hinf
  · exact not_infix_of_witness 'h' (by decide)
      (not_mem_cfBody (by decide) (by decide) n) hinf
  · exact not_infix_of_witness 'h' (by decide)
      (not_mem_cfBody (by decide) (by decide) n) hinf
  · exact not_infix_of_witness 'g' (by decide)
      (not_mem_cfBody (by decide) (by decide) n) hinf
  · exact not_infix_of_witness 'h' (by decide)
      (not_mem_cfBody (by decide) (by decide) n) hinf
  · exact not_infix_of_witness 'k' (by decide)
      (not_mem_cfBody (by decide) (by decide) n) hinf
  · exact not_infix_of_witness 'n' (by decide)
      (not_mem_cfBody (by decide) (by decide) n) hinf

/-- Witness for C6 at the four boundary lengths. -/
theorem C6_size_boundaries_witness :
    (cfBody 14991).length = 15001
    ∧ detectBlock 200 (cfBody 14991) [] = ⟨false, none, 0⟩
    ∧ (cfBody 14989).length = 14999
    ∧ detectBlock 200 (cfBody 14989) [] = ⟨true, some .robot_detected, 0.85⟩
    ∧ (capBody 49994).length = 50001
    ∧ detectBlock 200 (capBody 49994) [] = ⟨true, some .captcha, 0.6⟩
    ∧ (capBody 49992).length = 49999
    ∧ detectBlock 200 (capBody 49992) [] = ⟨true, some .captcha, 0.9⟩ := by
  refine ⟨by rw [cfBody_length], ?_, by rw [cfBody_length], ?_,
    by rw [capBody_length], ?_, by rw [capBody_length], ?_⟩
  · exact (C6_size_boundaries 200 (cfBody 14991) [] rfl (by decide)
      (by decide) (by decide) (by decide)).1
      ⟨by rw [lower_cfBody]; exact cfBody_has_cloudflare 14991,
       by rw [lower_cfBody]; exact cfBody_no_captcha 14991,
       by rw [cfBody_length]⟩
  · exact (C6_size_boundaries 200 (cfBody 14989) [] rfl (by decide)
      (by decide) (by decide) (by decide)).2.1
      ⟨by rw [lower_cfBody]; exact cfBody_has_cloudflare 14989,
       by rw [lower_cfBody]; exact cfBody_no_captcha 14989,
       by rw [cfBody_length]⟩
  · exact (C6_size_boundaries 200 (capBody 49994) [] rfl (by decide)
      (by decide) (by decide) (by decide)).2.2.1
      ⟨by rw [lower_capBody]; exact capBody_has_captcha 49994,
       by rw [capBody_length]⟩
  · exact (C6_size_boundaries 200 (capBody 49992) [] rfl (by decide)
      (by decide) (by decide) (by decide)).2.2.2
      ⟨by rw [lower_capBody]; exact capBody_has_captcha 49992,
       by rw [capBody_length]⟩

theorem foldl_actionTime (l : List ActionItem) (init : Int) :
    l.foldl (fun acc a => acc + actionTimeOf a) init
      = init + (l.map actionTimeOf).sum := by
  induction l generalizing init with
  | nil => simp
  | cons a t ih =>
    rw [List.foldl_cons, ih, List.map_cons, List.sum_cons]
    ring

/-- C7: `getEngineMaxTime` equals min(15000, timeout) for tlsclient,
min(wait + 30000, timeout) for playwright (actions ignored), and
min(wait + Σ(actions) + 30000, timeout) for chrome-cdp, where a wait
action contributes its parsed milliseconds and every other action
250 ms; the parse defaults are 1000 ms for a wait action's missing
milliseconds, 300000 for a missing timeout, and 0 for a missing wait. -/
theorem C7_getEngineMaxTime_formula :
    (∀ r : ScrapeRequest,
      getEngineMaxTime r =
        match r.engine with
        | .tlsclient => min 15000 r.timeout
        | .playwright => min (r.wait + 30000) r.timeout
        | .chromeCdp =>
            min (r.wait + ((r.actions.getD []).map actionTimeOf).sum + 30000)
              r.timeout)
    ∧ parseAction (.obj [("type", .str "wait")]) = some (.wait 1000)
    ∧ (parseScrapeRequest (.obj [("url", .str "https://example.com")])).map
        (fun r => (r.timeout, r.wait)) = some (300000, 0) := by
  refine ⟨fun r => ?_, rfl, rfl⟩
  unfold getEngineMaxTime
  cases he : r.engine
  · rw [foldl_actionTime]
    norm_num
  · rfl
  · rfl

/-- C5: `executeJob` first marks the job processing; a pipeline result
with truthy `pageError` and empty `content` is marked failed with
`{error: pageError}` and that error is returned; every other result is
marked completed and returned; a thrown exception is marked failed
with `{error: message}`; in particular a non-empty `pageError` together
with non-empty `content` yields status completed. -/
theorem C5_executeJob_transitions :
    (∀ o : Except String PipelineResult,
        ((executeJob o).1.head?.map Prod.fst) = some .processing)
    ∧ (∀ msg : String,
        executeJob (.error msg)
          = ([(.processing, none), (.failed, some (.error msg))],
             .error msg))
    ∧ (∀ r : PipelineResult, truthyOptStr r.pageError = true →
        r.content = "" →
        executeJob (.ok r)
          = ([(.processing, none),
              (.failed, some (.error (r.pageError.getD "")))],
             .error (r.pageError.getD "")))
    ∧ (∀ r : PipelineResult,
        ¬ (truthyOptStr r.pageError = true ∧ r.content = "") →
        executeJob (.ok r)
          = ([(.processing, none), (.completed, some (.success r))],
             .success r))
    ∧ (∀ r : PipelineResult, truthyOptStr r.pageError = true →
        r.content ≠ "" →
        executeJob (.ok r)
          = ([(.processing, none), (.completed, some (.success r))],
             .success r)) := by
  refine ⟨?_, fun msg => rfl, ?_, ?_, ?_⟩
  · intro o
    rcases o with msg | r
    · rfl
    · by_cases hc : truthyOptStr r.pageError = true ∧ r.content = ""
      · simp only [executeJob]
        rw [if_pos hc]
        rfl
      · simp only [executeJob]
        rw [if_neg hc]
        rfl
  · intro r hp hc
    simp only [executeJob]
    rw [if_pos ⟨hp, hc⟩]
  · intro r hn
    simp only [executeJob]
    rw [if_neg hn]
  · intro r hp hc
    simp only [executeJob]
    rw [if_neg (fun hand => hc hand.2)]

/-- Witness for C5: a result with pageError "boom" and non-empty content
completes; the same pageError with empty content fails. -/
theorem C5_executeJob_transitions_witness :
    executeJob (.ok ⟨"<html></html>", some "boom"⟩)
      = ([(.processing, none),
          (.completed, some (.success ⟨"<html></html>", some "boom"⟩))],
         .success ⟨"<html></html>", some "boom"⟩)
    ∧ executeJob (.ok ⟨"", some "boom"⟩)
      = ([(.processing, none), (.failed, some (.error "boom"))],
         .error "boom") :=
  ⟨C5_executeJob_transitions.2.2.2.2 ⟨"<html></html>", some "boom"⟩
      rfl (by decide),
   C5_executeJob_transitions.2.2.1 ⟨"", some "boom"⟩ rfl rfl⟩

theorem poolStep_preserves {MAX : ℕ} {s t : PoolState}
    (hstep : PoolStep MAX s t) (ih : poolInv MAX s) : poolInv MAX t := by
  obtain ⟨ih1, ih2, ih3⟩ := ih
  cases hstep with
  | acquire id =>
    by_cases hlt : s.activePages < MAX
    · simp only [poolInv, acquirePageSlot, if_pos hlt]
      exact ⟨by omega, by omega, fun hq => absurd (ih3 hq) (by omega)⟩
    · simp only [poolInv, acquirePageSlot, if_neg hlt]
      exact ⟨ih1, ih2, fun _ => by omega⟩
  | release hhold =>
    cases hq : s.pageQueue with
    | cons w rest =>
      simp only [poolInv, releasePageSlot, hq]
      exact ⟨ih1, ih2, fun _ => ih3 (by simp [hq])⟩
    | nil =>
      simp only [poolInv, releasePageSlot, hq]
      exact ⟨by omega, by omega, fun hfalse => absurd rfl hfalse⟩

theorem poolInvariant {MAX : ℕ} {s : PoolState}
    (hr : PoolReachable MAX s) :
    s.activePages ≤ MAX ∧ s.activePages = s.holding
      ∧ (s.pageQueue ≠ [] → s.activePages = MAX) := by
  have : poolInv MAX s := by
    induction hr with
    | init => exact ⟨Nat.zero_le _, rfl, fun hq => absurd rfl hq⟩
    | step hs hstep ih => exact poolStep_preserves hstep ih
  exact this

/-- C4: pool slot discipline: an acquire below MAX is granted
immediately and increments the counter; at MAX the caller is enqueued
at the tail; a release with waiters resumes exactly the head waiter
without decrementing; a release without waiters decrements; the counter
never exceeds MAX in any reachable state; and every scrape performs
exactly one acquire and one release on every exit path. -/
theorem C4_pool_slots (MAX : ℕ) :
    (∀ (s : PoolState) (id : ℕ), s.activePages < MAX →
        acquirePageSlot MAX id s
          = ({ s with activePages := s.activePages + 1,
                      holding := s.holding + 1 }, true))
    ∧ (∀ (s : PoolState) (id : ℕ), ¬ s.activePages < MAX →
        acquirePageSlot MAX id s
          = ({ s with pageQueue := s.pageQueue ++ [id] }, false))
    ∧ (∀ (s : PoolState) (w : ℕ) (rest : List ℕ),
        s.pageQueue = w :: rest →
        releasePageSlot s = ({ s with pageQueue := rest }, some w))
    ∧ (∀ s : PoolState, s.pageQueue = [] →
        releasePageSlot s
          = ({ s with activePages := s.activePages - 1,
                      holding := s.holding - 1 }, none))
    ∧ (∀ s : PoolState, PoolReachable MAX s → s.activePages ≤ MAX)
    ∧ (∀ o : ScrapeOutcome,
        (scrapeWithPlaywrightSlotOps o).1
            = [SlotOp.acquire, SlotOp.release]
          ∧ (scrapeWithPlaywrightSlotOps o).1.count SlotOp.acquire = 1
          ∧ (scrapeWithPlaywrightSlotOps o).1.count SlotOp.release = 1) := by
  refine ⟨?_, ?_, ?_, ?_, ?_, ?_⟩
  · intro s id hlt
    simp [acquirePageSlot, hlt]
  · intro s id hge
    simp [acquirePageSlot, hge]
  · intro s w rest hq
    simp [releasePageSlot, hq]
  · intro s hq
    simp [releasePageSlot, hq]
  · intro s hr
    exact (poolInvariant hr).1
  · intro o
    exact ⟨rfl, rfl, rfl⟩

/-- Witness for C4: a concrete reachable state under MAX = 2 and the
four slot operations at concrete states. -/
theorem C4_pool_slots_witness :
    PoolReachable 2 ⟨1, [], 1⟩
    ∧ (1 : ℕ) ≤ 2
    ∧ acquirePageSlot 2 7 ⟨1, [], 1⟩ = (⟨2, [], 2⟩, true)
    ∧ acquirePageSlot 2 8 ⟨2, [], 2⟩ = (⟨2, [8], 2⟩, false)
    ∧ releasePageSlot ⟨2, [8], 2⟩ = (⟨2, [], 2⟩, some 8)
    ∧ releasePageSlot ⟨2, [], 2⟩ = (⟨1, [], 1⟩, none) := by
  have h1 : PoolReachable 2 ⟨1, [], 1⟩ :=
    PoolReachable.step PoolReachable.init (@PoolStep.acquire 2 5 ⟨0, [], 0⟩)
  exact ⟨h1, (C4_pool_slots 2).2.2.2.2.1 ⟨1, [], 1⟩ h1,
    (C4_pool_slots 2).1 ⟨1, [], 1⟩ 7 (by norm_num),
    (C4_pool_slots 2).2.1 ⟨2, [], 2⟩ 8 (by norm_num),
    (C4_pool_slots 2).2.2.1 ⟨2, [8], 2⟩ 8 [] rfl,
    (C4_pool_slots 2).2.2.2.1 ⟨2, [], 2⟩ rfl⟩

theorem deleteHandlerV1_mem {store : JobStore} {id : JSStr}
    (hm : id ∈ store) :
    deleteHandlerV1 store id
      = ((deleteJob store id).1, 200, ⟨(deleteJob store id).2, none⟩) := by
  unfold deleteHandlerV1
  rw [if_pos hm]

theorem deleteHandlerV1_not_mem {store : JobStore} {id : JSStr}
    (hm : id ∉ store) :
    deleteHandlerV1 store id
      = (store, 200, ⟨true, some "Job not found or already deleted"⟩) := by
  unfold deleteHandlerV1
  rw [if_neg hm]

theorem not_mem_deleteJob (store : JobStore) (id : JSStr) :
    id ∉ (deleteJob store id).1 := by
  simp [deleteJob, List.mem_filter]

/-- C8 (amended): both successive DELETE calls return HTTP 200 with
success true; the two response bodies coincide when the job did not
exist, while for an existing job the second response additionally
carries the informational message field. -/
theorem C8_delete_twice (store : JobStore) (id : JSStr) :
    (deleteHandlerV1 store id).2.1 = 200
    ∧ (deleteHandlerV1 store id).2.2.success = true
    ∧ (deleteHandlerV1 (deleteHandlerV1 store id).1 id).2.1 = 200
    ∧ (deleteHandlerV1 (deleteHandlerV1 store id).1 id).2.2.success = true
    ∧ (id ∉ store →
        (deleteHandlerV1 (deleteHandlerV1 store id).1 id).2.2
          = (deleteHandlerV1 store id).2.2)
    ∧ (id ∈ store →
        (deleteHandlerV1 store id).2.2 = ⟨true, none⟩
          ∧ (deleteHandlerV1 (deleteHandlerV1 store id).1 id).2.2
              = ⟨true, some "Job not found or already deleted"⟩) := by
  by_cases hm : id ∈ store
  · have hsucc : (decide (id ∈ store)) = true := decide_eq_true hm
    have h2 : id ∉ (deleteHandlerV1 store id).1 := by
      rw [deleteHandlerV1_mem hm]
      exact not_mem_deleteJob store id
    refine ⟨?_, ?_, ?_, ?_, fun hn => absurd hm hn, fun _ => ⟨?_, ?_⟩⟩
    · rw [deleteHandlerV1_mem hm]
    · rw [deleteHandlerV1_mem hm]
      exact hsucc
    · rw [deleteHandlerV1_not_mem h2]
    · rw [deleteHandlerV1_not_mem h2]
    · rw [deleteHandlerV1_mem hm]
      simp [deleteJob, hsucc]
    · rw [deleteHandlerV1_not_mem h2]
  · have h2 : id ∉ (deleteHandlerV1 store id).1 := by
      rw [deleteHandlerV1_not_mem hm]
      exact hm
    refine ⟨?_, ?_, ?_, ?_, fun _ => ?_, fun hyes => absurd hyes hm⟩
    · rw [deleteHandlerV1_not_mem hm]
    · rw [deleteHandlerV1_not_mem hm]
    · rw [deleteHandlerV1_not_mem h2]
    · rw [deleteHandlerV1_not_mem h2]
    · rw [deleteHandlerV1_not_mem h2, deleteHandlerV1_not_mem hm]

/-- Witness for C8 at a concrete store without the job. -/
theorem C8_delete_twice_witness :
    (deleteHandlerV1 [] "job-x".data).2.1 = 200
    ∧ (deleteHandlerV1 (deleteHandlerV1 [] "job-x".data).1 "job-x".data).2.2
        = (deleteHandlerV1 [] "job-x".data).2.2 :=
  ⟨(C8_delete_twice [] "job-x".data).1,
   (C8_delete_twice [] "job-x".data).2.2.2.2.1 (List.not_mem_nil _)⟩

/-- C8 counterexample: for an existing job the two successive DELETE
responses both say success but are not the same payload — the second
carries the informational message field while the first does not. -/
theorem C8_counterexample :
    (deleteHandlerV1 ["job-1".data] "job-1".data).2.2 = ⟨true, none⟩
    ∧ (deleteHandlerV1 (deleteHandlerV1 ["job-1".data] "job-1".data).1
          "job-1".data).2.2
        = ⟨true, some "Job not found or already deleted"⟩
    ∧ (deleteHandlerV1 ["job-1".data] "job-1".data).2.2
        ≠ (deleteHandlerV1 (deleteHandlerV1 ["job-1".data] "job-1".data).1
            "job-1".data).2.2 := by
  refine ⟨rfl, rfl, ?_⟩
  intro heq
  exact Option.noConfusion
    (show (none : Option String)
        = some "Job not found or already deleted" from
      congrArg DeleteResponseBody.message heq)

theorem getField_append_unknown (fields : List (String × Json))
    (k e : String) (v : Json) (hne : k ≠ e) :
    getField (fields ++ [(e, v)]) k = getField fields k := by
  have hbe : (k == e) = false := beq_eq_false_iff_ne.mpr hne
  unfold getField
  induction fields with
  | nil => simp [List.lookup, hbe]
  | cons kv t ih =>
    rcases kv with ⟨k1, v1⟩
    by_cases hk : (k == k1) = true
    · simp [List.lookup, hk]
    · simp only [Bool.not_eq_true] at hk
      simp [List.lookup, hk, ih]

theorem parseReqCore_congr {g1 g2 : String → Option Json}
    (h : ∀ k ∈ SCRAPE_REQUEST_KEYS, g1 k = g2 k) :
    parseReqCore g1 = parseReqCore g2 := by
  unfold parseReqCore
  rw [h "url" (by decide), h "engine" (by decide), h "headers" (by decide),
    h "cookies" (by decide), h "userAgent" (by decide),
    h "timeout" (by decide), h "wait" (by decide)]

theorem parseReqRender_congr {g1 g2 : String → Option Json}
    (h : ∀ k ∈ SCRAPE_REQUEST_KEYS, g1 k = g2 k) :
    parseReqRender g1 = parseReqRender g2 := by
  unfold parseReqRender
  rw [h "actions" (by decide), h "waitUntil" (by decide),
    h "waitForSelector" (by decide), h "screenshot" (by decide),
    h "fullPageScreenshot" (by decide)]

theorem parseReqProxy_congr {g1 g2 : String → Option Json}
    (h : ∀ k ∈ SCRAPE_REQUEST_KEYS, g1 k = g2 k) :
    parseReqProxy g1 = parseReqProxy g2 := by
  unfold parseReqProxy
  rw [h "proxy" (by decide), h "proxyProfile" (by decide),
    h "mobileProxy" (by decide), h "stealth" (by decide),
    h "blockMedia" (by decide), h "blockAds" (by decide)]

theorem parseReqJob_congr {g1 g2 : String → Option Json}
    (h : ∀ k ∈ SCRAPE_REQUEST_KEYS, g1 k = g2 k) :
    parseReqJob g1 = parseReqJob g2 := by
  unfold parseReqJob
  rw [h "mobile" (by decide), h "geolocation" (by decide),
    h "skipTlsVerification" (by decide), h "instantReturn" (by decide),
    h "priority" (by decide), h "logRequest" (by decide)]

theorem parseReqTail_congr {g1 g2 : String → Option Json}
    (h : ∀ k ∈ SCRAPE_REQUEST_KEYS, g1 k = g2 k) :
    parseReqTail g1 = parseReqTail g2 := by
  unfold parseReqTail
  rw [h "saveScrapeResultToGCS" (by decide),
    h "zeroDataRetention" (by decide),
    h "disableSmartWaitCache" (by decide), h "atsv" (by decide),
    h "disableJsDom" (by decide)]

/-- The parse consults only the declared schema keys. -/
theorem parseScrapeRequestWith_congr {g1 g2 : String → Option Json}
    (h : ∀ k ∈ SCRAPE_REQUEST_KEYS, g1 k = g2 k) :
    parseScrapeRequestWith g1 = parseScrapeRequestWith g2 := by
  unfold parseScrapeRequestWith
  rw [parseReqCore_congr h, parseReqRender_congr h, parseReqProxy_congr h,
    parseReqJob_congr h, parseReqTail_congr h]

/-- C2 (amended): `scrapeRequestSchema` is a non-strict `z.object`, so
an unrecognized field is stripped rather than rejected: adding a field
whose name is outside the schema keys leaves the parse result unchanged
(in particular, it does not make parsing fail). -/
theorem C2_unknown_field_ignored (fields : List (String × Json))
    (e : String) (v : Json) (he : e ∉ SCRAPE_REQUEST_KEYS) :
    parseScrapeRequest (.obj (fields ++ [(e, v)]))
      = parseScrapeRequest (.obj fields) := by
  simp only [parseScrapeRequest]
  exact parseScrapeRequestWith_congr
    (fun k hk => getField_append_unknown fields k e v
      (fun heq => he (heq ▸ hk)))

/-- C2 counterexample: a request object carrying the unrecognized field
"bogusField" is accepted — it parses to the all-defaults request —
rather than rejected with a validation error. -/
theorem C2_counterexample :
    parseScrapeRequest (.obj [("url", .str "https://example.com"),
        ("bogusField", .num 1)])
      = some ⟨"https://example.com", .chromeCdp, none, none, none, 300000, 0,
          none, none, none, false, false, none, none, none, true, true, true,
          false, none, false, false, 1, true, false, false, none, none,
          none⟩ := rfl

/-- Witness for C2: "bogusField" is not a schema key, and appending it
to a minimal valid request leaves the parse unchanged. -/
theorem C2_unknown_field_ignored_witness :
    "bogusField" ∉ SCRAPE_REQUEST_KEYS
    ∧ parseScrapeRequest (.obj [("url", .str "https://example.com"),
        ("bogusField", .num 1)])
      = parseScrapeRequest (.obj [("url", .str "https://example.com")]) :=
  ⟨by decide,
   C2_unknown_field_ignored [("url", .str "https://example.com")]
     "bogusField" (.num 1) (by decide)⟩
